import Mathlib

/-!
Verification of the VoxelHandTracking gesture interpreter.

The repository contains two near-identical scripts:
* the refined variant (raycast targeting, axis lock via `currentBuildNormal`),
  embedded below in namespace `Refined`;
* the simpler variant `src/main.js` (proximity targeting, no axis lock),
  embedded in namespace `Simple`.

Real numbers of the JS source are embedded as rationals.  The JS code compares
Euclidean distances (square roots) only against nonnegative bounds; every such
comparison `sqrt a < c` is embedded as the equivalent comparison of squares
`a < c^2`, which is exact for rationals and keeps every definition computable.
-/

namespace VoxelHand

/-- `VOXEL_SIZE` constant of both scripts. -/
def VOXEL_SIZE : ℚ := 1

/-- `PINCH_THRESHOLD` constant of both scripts (0.05). -/
def PINCH_THRESHOLD : ℚ := 1/20

/-- `BUILD_COOLDOWN` constant of both scripts (300 ms). -/
def BUILD_COOLDOWN : ℚ := 300

/-- A world-space vector, mirroring `THREE.Vector3` as used by the scripts. -/
structure Vec3 where
  x : ℚ
  y : ℚ
  z : ℚ
deriving DecidableEq, Repr

/-- A screen-space vector, mirroring `THREE.Vector2` (`lastLeftHandPos`). -/
structure Vec2 where
  x : ℚ
  y : ℚ
deriving DecidableEq, Repr

/-- Componentwise vector addition (`Vector3.add`). -/
def vadd (a b : Vec3) : Vec3 := ⟨a.x + b.x, a.y + b.y, a.z + b.z⟩

/-- Componentwise vector subtraction (`Vector3.sub` / `clone().sub`). -/
def vsub (a b : Vec3) : Vec3 := ⟨a.x - b.x, a.y - b.y, a.z - b.z⟩

/-- Scalar multiplication (`Vector3.multiplyScalar`). -/
def smul (c : ℚ) (a : Vec3) : Vec3 := ⟨c * a.x, c * a.y, c * a.z⟩

/-- Dot product (`Vector3.dot`). -/
def dot (a b : Vec3) : ℚ := a.x * b.x + a.y * b.y + a.z * b.z

/-- Squared Euclidean distance; `a.distanceTo(b) < c` for `c ≥ 0` is embedded
as `dist2 a b < c^2`. -/
def dist2 (a b : Vec3) : ℚ := (a.x - b.x)^2 + (a.y - b.y)^2 + (a.z - b.z)^2

/-- JavaScript `Math.round` (round half toward positive infinity):
`Math.round x = ⌊x + 1/2⌋` for every real argument. -/
def jsRound (q : ℚ) : ℤ := ⌊q + 1/2⌋

/-- Per-axis grid snapping `Math.round(p / VOXEL_SIZE) * VOXEL_SIZE` used for
the first voxel and the preview indicator. -/
def snap (p : Vec3) : Vec3 :=
  ⟨(jsRound (p.x / VOXEL_SIZE) : ℚ) * VOXEL_SIZE,
   (jsRound (p.y / VOXEL_SIZE) : ℚ) * VOXEL_SIZE,
   (jsRound (p.z / VOXEL_SIZE) : ℚ) * VOXEL_SIZE⟩

/-- JavaScript `Math.sign` on a finite number. -/
def qsign (q : ℚ) : ℚ := if 0 < q then 1 else if q < 0 then -1 else 0

/-- The duplicate test `v.position.distanceTo(pos) < 0.1` (squared form). -/
def voxelNear (v pos : Vec3) : Bool := decide (dist2 v pos < 1/100)

/-- `addVoxel(pos)` of both scripts: a linear scan for an existing voxel within
0.1 world units; if none is found the new position is appended (`voxels.push`). -/
def addVoxel (voxels : List Vec3) (pos : Vec3) : List Vec3 :=
  if voxels.any (fun v => voxelNear v pos) then voxels else voxels ++ [pos]

end VoxelHand

namespace VoxelHand.Refined

/-- Cross-frame mutable state of the refined script that the right- and
left-hand gesture logic reads and writes. -/
structure GestureState where
  isPinching : Bool
  currentBuildNormal : Option Vec3
  lastBuildTime : ℚ
  lastPlacedPos : Vec3
  lastPinchWorldPos : Vec3
  voxels : List Vec3
  isLeftGestureActive : Bool
  lastLeftHandPos : Vec2
  lastLeftPinchDistance : ℚ
deriving DecidableEq, Repr

/-- Per-frame aggregates computed by the right-hand pass of `processPinch`
before the global state-update block: the thumb-index pinch distance, the
world-space pinch midpoint, the raycast target (`frameTargetVoxelPos`, the hit
voxel's own position, when the ray from the camera through the index tip hits
a voxel), and `performance.now()`. -/
structure Frame where
  pinchDistance : ℚ
  pinchWorldPos : Vec3
  targetVoxelPos : Option Vec3
  now : ℚ
deriving DecidableEq, Repr

/-- Start-of-pinch block of the refined `processPinch` (the `!isPinching`
branch): with no voxels yet, snap the pinch anchor and place the first voxel;
otherwise, with a raycast target, only start tracking from the targeted voxel;
in either case mark the pinch active, clear the axis lock and start the
cooldown; with voxels present and no target, nothing happens. -/
def pinchStart (s : GestureState) (f : Frame) : GestureState :=
  if s.voxels.isEmpty then
    let startPos := snap f.pinchWorldPos
    { s with voxels := addVoxel s.voxels startPos
           , lastPlacedPos := startPos
           , isPinching := true
           , currentBuildNormal := none
           , lastPinchWorldPos := f.pinchWorldPos
           , lastBuildTime := f.now }
  else
    match f.targetVoxelPos with
    | some tgt =>
        { s with lastPlacedPos := tgt
               , isPinching := true
               , currentBuildNormal := none
               , lastPinchWorldPos := f.pinchWorldPos
               , lastBuildTime := f.now }
    | none => s

/-- Dominant-axis lock direction of the refined drag block: the largest
absolute component of the hand delta picks the axis (ties resolved x, then y,
then z, matching the `maxDelta === absX` comparison chain) and `Math.sign` of
that component picks the direction. -/
def lockDir (handDelta : Vec3) : Vec3 :=
  let absX := |handDelta.x|
  let absY := |handDelta.y|
  let absZ := |handDelta.z|
  let maxDelta := max absX (max absY absZ)
  if maxDelta = absX then ⟨qsign handDelta.x, 0, 0⟩
  else if maxDelta = absY then ⟨0, qsign handDelta.y, 0⟩
  else ⟨0, 0, qsign handDelta.z⟩

/-- Drag block of the refined `processPinch` (sustained pinch, cooldown
elapsed): with a locked axis, project the hand delta onto it and step one grid
unit in the projection's sign when the magnitude reaches `VOXEL_SIZE * 0.6`;
with no lock yet, require a dominant component of at least `VOXEL_SIZE * 1.2`,
step along that axis and lock it.  A step colliding with an existing voxel is
dropped without any state change. -/
def dragStep (s : GestureState) (f : Frame) : GestureState :=
  let handDelta := vsub f.pinchWorldPos s.lastPinchWorldPos
  match s.currentBuildNormal with
  | some n =>
      let projectedDist := dot handDelta n
      if VOXEL_SIZE * (3/5) ≤ |projectedDist| then
        let nextVoxelPos := vadd s.lastPlacedPos (smul (qsign projectedDist * VOXEL_SIZE) n)
        if s.voxels.any (fun v => voxelNear v nextVoxelPos) then s
        else
          { s with voxels := addVoxel s.voxels nextVoxelPos
                 , lastPlacedPos := nextVoxelPos
                 , lastPinchWorldPos := f.pinchWorldPos
                 , lastBuildTime := f.now }
      else s
  | none =>
      let absX := |handDelta.x|
      let absY := |handDelta.y|
      let absZ := |handDelta.z|
      let maxDelta := max absX (max absY absZ)
      if VOXEL_SIZE * (6/5) ≤ maxDelta then
        let moveDir := lockDir handDelta
        let nextVoxelPos := vadd s.lastPlacedPos (smul VOXEL_SIZE moveDir)
        if s.voxels.any (fun v => voxelNear v nextVoxelPos) then s
        else
          { s with voxels := addVoxel s.voxels nextVoxelPos
                 , lastPlacedPos := nextVoxelPos
                 , lastPinchWorldPos := f.pinchWorldPos
                 , lastBuildTime := f.now
                 , currentBuildNormal := some moveDir }
      else s

/-- The global pinch-state block of the refined `processPinch` for a frame in
which a building (right) hand was detected: below the pinch threshold either
start a pinch or, after the cooldown, attempt a drag step; above the threshold
the pinch is released only past the hysteresis band `PINCH_THRESHOLD + 0.01`,
which also clears the axis lock. -/
def processPinchStep (s : GestureState) (f : Frame) : GestureState :=
  if f.pinchDistance < PINCH_THRESHOLD then
    if s.isPinching = false then pinchStart s f
    else if BUILD_COOLDOWN < f.now - s.lastBuildTime then dragStep s f
    else s
  else if PINCH_THRESHOLD + 1/100 < f.pinchDistance then
    { s with isPinching := false, currentBuildNormal := none }
  else s

/-- Visibility flags of the scene indicators driven by `processPinch`. -/
structure Indicators where
  previewVisible : Bool
  selectionVisible : Bool
  cursorsVisible : Bool
deriving DecidableEq, Repr

/-- Early-return branch of the refined `processPinch` when the detector
reports zero hands: hide the preview, the selection highlight and the hand
cursors, clear `isLeftGestureActive`, `isPinching` and `currentBuildNormal`,
and return without touching anything else. -/
def processNoHands (s : GestureState) : GestureState × Indicators :=
  ({ s with isLeftGestureActive := false
          , isPinching := false
          , currentBuildNormal := none },
   ⟨false, false, false⟩)

/-- One MediaPipe landmark: normalized screen x/y plus relative depth z. -/
structure LM where
  x : ℚ
  y : ℚ
  z : ℚ
deriving DecidableEq, Repr

/-- A hand's landmark snapshot: the landmark array, indexed by the fixed
MediaPipe indices 0..20. -/
def Landmarks : Type := ℕ → LM

/-- Squared planar (x,y only) distance between two landmarks; every classifier
comparison of planar Euclidean distances is embedded through squares:
`sqrt a ⋈ c * sqrt b` with `c ≥ 0` is equivalent to `a ⋈ c^2 * b`. -/
def d2 (a b : LM) : ℚ := (a.x - b.x)^2 + (a.y - b.y)^2

/-- `isThreeFingerPose` of the refined script, with its sequence of early
returns: thumb extended with no slack (`dTip ≤ dBase` rejects), index and
middle extended with the 1.2 slack (squared: 36/25), ring and pinky strictly
curled. -/
def isThreeFingerPose (lm : Landmarks) : Bool :=
  let wrist := lm 0
  if d2 (lm 4) wrist ≤ d2 (lm 2) wrist then false
  else if d2 (lm 8) wrist ≤ d2 (lm 5) wrist * (36/25) then false
  else if d2 (lm 12) wrist ≤ d2 (lm 9) wrist * (36/25) then false
  else if d2 (lm 13) wrist ≤ d2 (lm 16) wrist then false
  else if d2 (lm 17) wrist ≤ d2 (lm 20) wrist then false
  else true

/-- `isTiltingPose` of the refined script: thumb extended with no slack,
index, middle and ring extended with the 1.2 slack, pinky strictly curled. -/
def isTiltingPose (lm : Landmarks) : Bool :=
  let wrist := lm 0
  if d2 (lm 4) wrist ≤ d2 (lm 2) wrist then false
  else if d2 (lm 8) wrist ≤ d2 (lm 5) wrist * (36/25) then false
  else if d2 (lm 12) wrist ≤ d2 (lm 9) wrist * (36/25) then false
  else if d2 (lm 16) wrist ≤ d2 (lm 13) wrist * (36/25) then false
  else if d2 (lm 17) wrist ≤ d2 (lm 20) wrist then false
  else true

/-- `isGrip` of the refined script: at least 3 of middle/ring/pinky strictly
curled and the thumb extended with no slack. -/
def isGrip (lm : Landmarks) : Bool :=
  let wrist := lm 0
  let curledCount :=
    (if d2 (lm 12) wrist < d2 (lm 9) wrist then 1 else 0) +
    (if d2 (lm 16) wrist < d2 (lm 13) wrist then 1 else 0) +
    (if d2 (lm 20) wrist < d2 (lm 17) wrist then (1:ℕ) else 0)
  decide (3 ≤ curledCount) && decide (d2 (lm 2) wrist < d2 (lm 4) wrist)

/-- A camera command requested from the external orbit controls. -/
inductive CamCmd where
  | rotateLeft (amt : ℚ)
  | rotateUp (amt : ℚ)
  | dollyOut (factor : ℚ)
  | dollyIn (factor : ℚ)
deriving DecidableEq, Repr

/-- Left-hand branch of the refined `processPinch` for one detected left hand:
spin/tilt track the thumb tip screen position (the first frame of a gesture
only initializes the anchor; later frames request `rotateLeft(-Δx * 15)` while
spinning and `rotateUp(Δy * 15)` while tilting); grip drives zoom from the
frame-to-frame change of the pinch distance; any other pose clears the gesture
flag and the zoom anchor.  `distance` is the thumb-index pinch distance
computed earlier in the loop body. -/
def processLeftHand (s : GestureState) (lm : Landmarks) (distance : ℚ) :
    GestureState × List CamCmd :=
  let thumbTip := lm 4
  let spinning := isThreeFingerPose lm
  let tilting := isTiltingPose lm
  if spinning || tilting then
    if s.isLeftGestureActive = false then
      ({ s with isLeftGestureActive := true
              , lastLeftHandPos := ⟨thumbTip.x, thumbTip.y⟩ }, [])
    else
      let cmds :=
        (if spinning then [CamCmd.rotateLeft (-(thumbTip.x - s.lastLeftHandPos.x) * 15)] else []) ++
        (if tilting then [CamCmd.rotateUp ((thumbTip.y - s.lastLeftHandPos.y) * 15)] else [])
      ({ s with lastLeftHandPos := ⟨thumbTip.x, thumbTip.y⟩ }, cmds)
  else if isGrip lm then
    let cmds :=
      if 0 < s.lastLeftPinchDistance then
        let deltaDist := distance - s.lastLeftPinchDistance
        if 1/1000 < |deltaDist| then
          if 0 < deltaDist then [CamCmd.dollyOut (1 + deltaDist * 15)]
          else [CamCmd.dollyIn (1 - deltaDist * 15)]
        else []
      else []
    ({ s with isLeftGestureActive := false, lastLeftPinchDistance := distance }, cmds)
  else
    ({ s with isLeftGestureActive := false, lastLeftPinchDistance := 0 }, [])

end VoxelHand.Refined

namespace VoxelHand.Simple

/-- Cross-frame mutable state of the simpler script `src/main.js`. -/
structure SState where
  isPinching : Bool
  lastBuildTime : ℚ
  lastPlacedPos : Vec3
  lastPinchWorldPos : Vec3
  voxels : List Vec3
deriving DecidableEq, Repr

/-- The physical-cursor scan of `src/main.js`: fold over the voxels keeping
the one strictly closest to the pinch position, starting from the
`TOUCH_THRESHOLD` of `VOXEL_SIZE * 1.5` (squared: 9/4). -/
def closestVoxel (voxels : List Vec3) (cur : Vec3) : Option Vec3 :=
  (voxels.foldl
    (fun acc v => if dist2 v cur < acc.1 then (dist2 v cur, some v) else acc)
    ((VOXEL_SIZE * (3/2))^2, none)).2

/-- Outward face normal picked in `src/main.js` from the dominant component of
`diff = pinchPos - closestVoxel.position`; note the `diff.x > 0 ? 1 : -1`
style sign (never zero). -/
def faceNormal (diff : Vec3) : Vec3 :=
  if |diff.y| ≤ |diff.x| ∧ |diff.z| ≤ |diff.x| then
    ⟨if 0 < diff.x then 1 else -1, 0, 0⟩
  else if |diff.x| ≤ |diff.y| ∧ |diff.z| ≤ |diff.y| then
    ⟨0, if 0 < diff.y then 1 else -1, 0⟩
  else
    ⟨0, 0, if 0 < diff.z then 1 else -1⟩

/-- `targetVoxelPos` of `src/main.js`: when a voxel is within the touch
threshold of the pinch position, the closest one's position offset by one
`VOXEL_SIZE` along the face normal of the dominant difference axis. -/
def computeTarget (voxels : List Vec3) (cur : Vec3) : Option Vec3 :=
  if voxels.isEmpty then none
  else
    match closestVoxel voxels cur with
    | some cv => some (vadd cv (smul VOXEL_SIZE (faceNormal (vsub cur cv))))
    | none => none

/-- One-grid-unit step of the `src/main.js` drag logic along the dominant axis
of `delta`, with the `delta.x > 0 ? 1 : -1` sign convention. -/
def dominantStep (delta : Vec3) : Vec3 :=
  if |delta.y| ≤ |delta.x| ∧ |delta.z| ≤ |delta.x| then
    ⟨(if 0 < delta.x then 1 else -1) * VOXEL_SIZE, 0, 0⟩
  else if |delta.x| ≤ |delta.y| ∧ |delta.z| ≤ |delta.y| then
    ⟨0, (if 0 < delta.y then 1 else -1) * VOXEL_SIZE, 0⟩
  else
    ⟨0, 0, (if 0 < delta.z then 1 else -1) * VOXEL_SIZE⟩

/-- The `processPinch` state update of `src/main.js` for a frame with a
detected hand: `distance` is the normalized thumb-index distance, `cur` the
world pinch midpoint, `now` the timestamp.  On a new pinch the first voxel is
the snapped anchor (no voxels yet) or the proximity target; `isPinching` is
set unconditionally.  A sustained pinch steps along the dominant delta axis
once the hand has moved at least `VOXEL_SIZE * 0.5` (squared: 1/4) and the
cooldown has elapsed.  Release happens past `PINCH_THRESHOLD + 0.01`. -/
def sStep (s : SState) (distance : ℚ) (cur : Vec3) (now : ℚ) : SState :=
  let targetVoxelPos := computeTarget s.voxels cur
  if distance < PINCH_THRESHOLD then
    if s.isPinching = false then
      let firstPos : Option Vec3 :=
        if s.voxels.isEmpty then some (snap cur) else targetVoxelPos
      match firstPos with
      | some fp =>
          { isPinching := true
          , voxels := addVoxel s.voxels fp
          , lastPlacedPos := fp
          , lastPinchWorldPos := cur
          , lastBuildTime := now }
      | none => { s with isPinching := true }
    else if BUILD_COOLDOWN < now - s.lastBuildTime then
      let delta := vsub cur s.lastPinchWorldPos
      if (VOXEL_SIZE * (1/2))^2 ≤ dot delta delta then
        let nextVoxelPos := vadd s.lastPlacedPos (dominantStep delta)
        if s.voxels.any (fun v => voxelNear v nextVoxelPos) then s
        else
          { s with voxels := addVoxel s.voxels nextVoxelPos
                 , lastPlacedPos := nextVoxelPos
                 , lastPinchWorldPos := cur
                 , lastBuildTime := now }
      else s
    else s
  else if PINCH_THRESHOLD + 1/100 < distance then
    { s with isPinching := false }
  else s

/-- Early-return branch of `src/main.js` when no hands are detected: the
preview indicator is hidden and nothing else happens; the returned flag is the
preview visibility. -/
def sNoHands (s : SState) : SState × Bool := (s, false)

/-- Quiescent state of the simpler script. -/
def sSt0 : SState :=
  { isPinching := false, lastBuildTime := 0, lastPlacedPos := ⟨0, 0, 0⟩
  , lastPinchWorldPos := ⟨0, 0, 0⟩, voxels := [] }

end VoxelHand.Simple

namespace VoxelHand.Refined

/-- Quiescent interpreter state: no pinch, no lock, nothing placed yet. -/
def st0 : GestureState :=
  { isPinching := false, currentBuildNormal := none, lastBuildTime := 0
  , lastPlacedPos := ⟨0, 0, 0⟩, lastPinchWorldPos := ⟨0, 0, 0⟩, voxels := []
  , isLeftGestureActive := false, lastLeftHandPos := ⟨0, 0⟩, lastLeftPinchDistance := 0 }

/-- Landmark snapshot with index and middle clearly extended, ring and pinky
clearly curled, and the thumb tip at 1.1 times the thumb base's planar wrist
distance: inside the gap between the no-slack rule and the 1.2-slack rule. -/
def lmSlackGap : Landmarks := fun i =>
  if i = 2 then ⟨1, 0, 0⟩
  else if i = 4 then ⟨11/10, 0, 0⟩
  else if i = 5 then ⟨0, 1/10, 0⟩
  else if i = 8 then ⟨0, 2, 0⟩
  else if i = 9 then ⟨0, -(1/10), 0⟩
  else if i = 12 then ⟨0, -2, 0⟩
  else if i = 13 then ⟨1, 1, 0⟩
  else if i = 16 then ⟨1/100, 0, 0⟩
  else if i = 17 then ⟨-1, 1, 0⟩
  else if i = 20 then ⟨0, 1/100, 0⟩
  else ⟨0, 0, 0⟩

/-- Three-finger-pose snapshot with the thumb tip at screen x = 0.40. -/
def lmSpinA : Landmarks := fun i =>
  if i = 2 then ⟨1/10, 0, 0⟩
  else if i = 4 then ⟨2/5, 0, 0⟩
  else if i = 5 then ⟨0, 1/10, 0⟩
  else if i = 8 then ⟨0, 2, 0⟩
  else if i = 9 then ⟨0, -(1/10), 0⟩
  else if i = 12 then ⟨0, -2, 0⟩
  else if i = 13 then ⟨1, 1, 0⟩
  else if i = 16 then ⟨1/100, 0, 0⟩
  else if i = 17 then ⟨-1, 1, 0⟩
  else if i = 20 then ⟨0, 1/100, 0⟩
  else ⟨0, 0, 0⟩

/-- The same pose one frame later, thumb tip moved to screen x = 0.35. -/
def lmSpinB : Landmarks := fun i =>
  if i = 4 then ⟨7/20, 0, 0⟩ else lmSpinA i

/-- Mid-pinch state locked to the +x axis with one voxel at the origin. -/
def stLockedX : GestureState :=
  { st0 with
    isPinching := true
  , currentBuildNormal := some ⟨1, 0, 0⟩
  , voxels := [⟨0, 0, 0⟩] }

/-- Idle state with a single voxel at the origin. -/
def stOneVoxel : GestureState := { st0 with voxels := [⟨0, 0, 0⟩] }

/-- Left-gesture-active state anchored at thumb-tip screen x = 0.40. -/
def stSpin : GestureState :=
  { st0 with
    isLeftGestureActive := true
  , lastLeftHandPos := ⟨2/5, 0⟩ }

/-- A vector is a signed coordinate axis unit: the only shapes the axis lock
can take. -/
def signedAxis (n : Vec3) : Prop :=
  n = ⟨1, 0, 0⟩ ∨ n = ⟨-1, 0, 0⟩ ∨ n = ⟨0, 1, 0⟩ ∨
  n = ⟨0, -1, 0⟩ ∨ n = ⟨0, 0, 1⟩ ∨ n = ⟨0, 0, -1⟩

/-- Every locked build normal of a state is a signed axis unit. -/
def lockedOK (s : GestureState) : Prop :=
  ∀ n, s.currentBuildNormal = some n → signedAxis n

end VoxelHand.Refined

namespace VoxelHand

/-- Two voxel positions of the stored collection are "distinct cells" when
they are at least 0.1 world units apart (squared form). -/
def separated (vs : List Vec3) : Prop :=
  vs.Pairwise (fun a b => ¬ dist2 a b < 1/100)

lemma dist2_self (a : Vec3) : dist2 a a = 0 := by
  simp [dist2]

lemma jsRound_eq (q : ℚ) (n : ℤ) (h1 : (n:ℚ) ≤ q + 1/2) (h2 : q + 1/2 < n + 1) :
    jsRound q = n := by
  unfold jsRound
  exact Int.floor_eq_iff.mpr ⟨h1, by linarith⟩

lemma qsign_of_pos (q : ℚ) (h : 0 < q) : qsign q = 1 := by
  simp [qsign, h]

lemma qsign_of_neg (q : ℚ) (h : q < 0) : qsign q = -1 := by
  simp [qsign, h, asymm h]

lemma addVoxel_of_free (vs : List Vec3) (p : Vec3)
    (h : vs.any (fun v => voxelNear v p) = false) : addVoxel vs p = vs ++ [p] := by
  simp [addVoxel, h]

lemma addVoxel_of_occupied (vs : List Vec3) (p : Vec3)
    (h : vs.any (fun v => voxelNear v p) = true) : addVoxel vs p = vs := by
  simp [addVoxel, h]

lemma addVoxel_of_mem_near (vs : List Vec3) (p : Vec3)
    (h : ∃ v ∈ vs, dist2 v p < 1/100) : addVoxel vs p = vs := by
  apply addVoxel_of_occupied
  rw [List.any_eq_true]
  obtain ⟨v, hv, hd⟩ := h
  exact ⟨v, hv, by simpa [voxelNear] using hd⟩

lemma addVoxel_idem (vs : List Vec3) (p : Vec3) :
    addVoxel (addVoxel vs p) p = addVoxel vs p := by
  unfold addVoxel
  split
  · next h => simp [h]
  · next h =>
    have : ((vs ++ [p]).any fun v => voxelNear v p) = true := by
      rw [List.any_eq_true]
      exact ⟨p, by simp, by simp [voxelNear, dist2_self]⟩
    simp [this]

lemma separated_addVoxel (vs : List Vec3) (p : Vec3) (h : separated vs) :
    separated (addVoxel vs p) := by
  unfold addVoxel
  split
  · exact h
  · next hfree =>
    rw [Bool.not_eq_true, List.any_eq_false] at hfree
    unfold separated at h ⊢
    rw [List.pairwise_append]
    refine ⟨h, List.pairwise_singleton _ _, ?_⟩
    intro a ha b hb
    rw [List.mem_singleton] at hb
    subst hb
    have := hfree a ha
    simpa [voxelNear] using this

end VoxelHand

namespace VoxelHand.Refined

lemma processPinchStep_start (s : GestureState) (f : Frame)
    (hpin : s.isPinching = false) (hd : f.pinchDistance < PINCH_THRESHOLD) :
    processPinchStep s f = pinchStart s f := by
  simp [processPinchStep, hd, hpin]

lemma processPinchStep_drag (s : GestureState) (f : Frame)
    (hpin : s.isPinching = true) (hd : f.pinchDistance < PINCH_THRESHOLD)
    (hcd : BUILD_COOLDOWN < f.now - s.lastBuildTime) :
    processPinchStep s f = dragStep s f := by
  simp [processPinchStep, hd, hpin, hcd]

lemma processPinchStep_cooldown (s : GestureState) (f : Frame)
    (hpin : s.isPinching = true) (hd : f.pinchDistance < PINCH_THRESHOLD)
    (hcd : ¬ BUILD_COOLDOWN < f.now - s.lastBuildTime) :
    processPinchStep s f = s := by
  simp [processPinchStep, hd, hpin, hcd]

lemma processPinchStep_release (s : GestureState) (f : Frame)
    (hd : PINCH_THRESHOLD + 1/100 < f.pinchDistance) :
    processPinchStep s f =
      { s with isPinching := false, currentBuildNormal := none } := by
  have hd1 : ¬ f.pinchDistance < PINCH_THRESHOLD := by
    rw [not_lt]
    have : (0:ℚ) < 1/100 := by norm_num
    linarith
  unfold processPinchStep
  rw [if_neg hd1, if_pos hd]

lemma processPinchStep_band (s : GestureState) (f : Frame)
    (hd1 : ¬ f.pinchDistance < PINCH_THRESHOLD)
    (hd2 : ¬ PINCH_THRESHOLD + 1/100 < f.pinchDistance) :
    processPinchStep s f = s := by
  unfold processPinchStep
  rw [if_neg hd1, if_neg hd2]

lemma dragStep_locked_small (s : GestureState) (f : Frame) (n : Vec3)
    (hlock : s.currentBuildNormal = some n)
    (hsmall : ¬ VOXEL_SIZE * (3/5) ≤ |dot (vsub f.pinchWorldPos s.lastPinchWorldPos) n|) :
    dragStep s f = s := by
  unfold dragStep
  rw [hlock]
  simp only []
  rw [if_neg hsmall]

lemma dragStep_locked_occupied (s : GestureState) (f : Frame) (n : Vec3)
    (hlock : s.currentBuildNormal = some n)
    (hbig : VOXEL_SIZE * (3/5) ≤ |dot (vsub f.pinchWorldPos s.lastPinchWorldPos) n|)
    (hocc : s.voxels.any (fun v => voxelNear v
      (vadd s.lastPlacedPos
        (smul (qsign (dot (vsub f.pinchWorldPos s.lastPinchWorldPos) n) * VOXEL_SIZE) n)))
      = true) :
    dragStep s f = s := by
  unfold dragStep
  rw [hlock]
  simp only []
  rw [if_pos hbig, if_pos hocc]

lemma dragStep_locked_place (s : GestureState) (f : Frame) (n : Vec3)
    (hlock : s.currentBuildNormal = some n)
    (hbig : VOXEL_SIZE * (3/5) ≤ |dot (vsub f.pinchWorldPos s.lastPinchWorldPos) n|)
    (hfree : s.voxels.any (fun v => voxelNear v
      (vadd s.lastPlacedPos
        (smul (qsign (dot (vsub f.pinchWorldPos s.lastPinchWorldPos) n) * VOXEL_SIZE) n)))
      = false) :
    dragStep s f =
      { s with
        voxels := s.voxels ++ [vadd s.lastPlacedPos
          (smul (qsign (dot (vsub f.pinchWorldPos s.lastPinchWorldPos) n) * VOXEL_SIZE) n)]
        , lastPlacedPos := vadd s.lastPlacedPos
          (smul (qsign (dot (vsub f.pinchWorldPos s.lastPinchWorldPos) n) * VOXEL_SIZE) n)
        , lastPinchWorldPos := f.pinchWorldPos
        , lastBuildTime := f.now } := by
  unfold dragStep
  rw [hlock]
  simp only []
  rw [if_pos hbig, if_neg (by simp [hfree]), addVoxel_of_free _ _ hfree]

lemma dragStep_unlocked_small (s : GestureState) (f : Frame)
    (hlock : s.currentBuildNormal = none)
    (hsmall : ¬ VOXEL_SIZE * (6/5) ≤
      max |(vsub f.pinchWorldPos s.lastPinchWorldPos).x|
        (max |(vsub f.pinchWorldPos s.lastPinchWorldPos).y|
          |(vsub f.pinchWorldPos s.lastPinchWorldPos).z|)) :
    dragStep s f = s := by
  unfold dragStep
  rw [hlock]
  simp only []
  rw [if_neg hsmall]

lemma dragStep_unlocked_occupied (s : GestureState) (f : Frame)
    (hlock : s.currentBuildNormal = none)
    (hbig : VOXEL_SIZE * (6/5) ≤
      max |(vsub f.pinchWorldPos s.lastPinchWorldPos).x|
        (max |(vsub f.pinchWorldPos s.lastPinchWorldPos).y|
          |(vsub f.pinchWorldPos s.lastPinchWorldPos).z|))
    (hocc : s.voxels.any (fun v => voxelNear v
      (vadd s.lastPlacedPos
        (smul VOXEL_SIZE (lockDir (vsub f.pinchWorldPos s.lastPinchWorldPos)))))
      = true) :
    dragStep s f = s := by
  unfold dragStep
  rw [hlock]
  simp only []
  rw [if_pos hbig, if_pos hocc]

lemma dragStep_unlocked_place (s : GestureState) (f : Frame)
    (hlock : s.currentBuildNormal = none)
    (hbig : VOXEL_SIZE * (6/5) ≤
      max |(vsub f.pinchWorldPos s.lastPinchWorldPos).x|
        (max |(vsub f.pinchWorldPos s.lastPinchWorldPos).y|
          |(vsub f.pinchWorldPos s.lastPinchWorldPos).z|))
    (hfree : s.voxels.any (fun v => voxelNear v
      (vadd s.lastPlacedPos
        (smul VOXEL_SIZE (lockDir (vsub f.pinchWorldPos s.lastPinchWorldPos)))))
      = false) :
    dragStep s f =
      { s with
        voxels := s.voxels ++ [vadd s.lastPlacedPos
          (smul VOXEL_SIZE (lockDir (vsub f.pinchWorldPos s.lastPinchWorldPos)))]
        , lastPlacedPos := vadd s.lastPlacedPos
          (smul VOXEL_SIZE (lockDir (vsub f.pinchWorldPos s.lastPinchWorldPos)))
        , lastPinchWorldPos := f.pinchWorldPos
        , lastBuildTime := f.now
        , currentBuildNormal := some (lockDir (vsub f.pinchWorldPos s.lastPinchWorldPos)) } := by
  unfold dragStep
  rw [hlock]
  simp only []
  rw [if_pos hbig, if_neg (by simp [hfree]), addVoxel_of_free _ _ hfree]

lemma append_singleton_ne (vs : List Vec3) (p : Vec3) : vs ++ [p] ≠ vs := by
  intro h
  have := congrArg List.length h
  simp at this

/-- A drag attempt either leaves the state unchanged or places exactly one new
voxel, records it as `lastPlacedPos`, re-anchors the pinch position and resets
the cooldown timer. -/
lemma dragStep_cases (s : GestureState) (f : Frame) :
    dragStep s f = s ∨
    ∃ p, s.voxels.any (fun v => voxelNear v p) = false ∧
      dragStep s f =
      { s with voxels := s.voxels ++ [p]
             , lastPlacedPos := p
             , lastPinchWorldPos := f.pinchWorldPos
             , lastBuildTime := f.now
             , currentBuildNormal := (dragStep s f).currentBuildNormal } := by
  rcases hn : s.currentBuildNormal with _ | n
  · by_cases hbig : VOXEL_SIZE * (6/5) ≤
      max |(vsub f.pinchWorldPos s.lastPinchWorldPos).x|
        (max |(vsub f.pinchWorldPos s.lastPinchWorldPos).y|
          |(vsub f.pinchWorldPos s.lastPinchWorldPos).z|)
    · cases hocc : s.voxels.any (fun v => voxelNear v
        (vadd s.lastPlacedPos
          (smul VOXEL_SIZE (lockDir (vsub f.pinchWorldPos s.lastPinchWorldPos)))))
      · right
        refine ⟨_, hocc, ?_⟩
        rw [dragStep_unlocked_place s f hn hbig hocc]
      · left
        exact dragStep_unlocked_occupied s f hn hbig hocc
    · left
      exact dragStep_unlocked_small s f hn hbig
  · by_cases hbig : VOXEL_SIZE * (3/5) ≤
      |dot (vsub f.pinchWorldPos s.lastPinchWorldPos) n|
    · cases hocc : s.voxels.any (fun v => voxelNear v
        (vadd s.lastPlacedPos
          (smul (qsign (dot (vsub f.pinchWorldPos s.lastPinchWorldPos) n) * VOXEL_SIZE) n)))
      · right
        refine ⟨_, hocc, ?_⟩
        rw [dragStep_locked_place s f n hn hbig hocc]
      · left
        exact dragStep_locked_occupied s f n hn hbig hocc
    · left
      exact dragStep_locked_small s f n hn hbig

/-- Any frame either leaves the stored voxels unchanged or passes one new
position through `addVoxel`. -/
lemma step_voxels_cases (s : GestureState) (f : Frame) :
    (processPinchStep s f).voxels = s.voxels ∨
    ∃ p, (processPinchStep s f).voxels = addVoxel s.voxels p := by
  by_cases hd : f.pinchDistance < PINCH_THRESHOLD
  · cases hpin : s.isPinching
    · rw [processPinchStep_start s f hpin hd]
      unfold pinchStart
      by_cases hemp : s.voxels.isEmpty
      · rw [if_pos hemp]
        right
        exact ⟨_, rfl⟩
      · rw [if_neg hemp]
        rcases f.targetVoxelPos with _ | tgt
        · left; rfl
        · left; rfl
    · by_cases hcd : BUILD_COOLDOWN < f.now - s.lastBuildTime
      · rw [processPinchStep_drag s f hpin hd hcd]
        rcases dragStep_cases s f with h | ⟨p, hfree, h⟩
        · left; rw [h]
        · right
          refine ⟨p, ?_⟩
          rw [h, addVoxel_of_free _ _ hfree]
      · rw [processPinchStep_cooldown s f hpin hd hcd]
        left; rfl
  · by_cases hrel : PINCH_THRESHOLD + 1/100 < f.pinchDistance
    · rw [processPinchStep_release s f hrel]
      left; rfl
    · rw [processPinchStep_band s f hd hrel]
      left; rfl

lemma step_pinching_stays (s : GestureState) (f : Frame)
    (hpin : s.isPinching = true) (hd : f.pinchDistance < PINCH_THRESHOLD) :
    (processPinchStep s f).isPinching = true := by
  by_cases hcd : BUILD_COOLDOWN < f.now - s.lastBuildTime
  · rw [processPinchStep_drag s f hpin hd hcd]
    rcases dragStep_cases s f with h | ⟨p, hfree, h⟩
    · rw [h]; exact hpin
    · rw [h]; exact hpin
  · rw [processPinchStep_cooldown s f hpin hd hcd]
    exact hpin

lemma cooldown_skip (s : GestureState) (f : Frame)
    (hpin : s.isPinching = true) (hd : f.pinchDistance < PINCH_THRESHOLD)
    (hcd : f.now - s.lastBuildTime ≤ BUILD_COOLDOWN) :
    processPinchStep s f = s :=
  processPinchStep_cooldown s f hpin hd (not_lt.mpr hcd)

lemma cooldown_reset (s : GestureState) (f : Frame)
    (hpin : s.isPinching = true)
    (hvox : (processPinchStep s f).voxels ≠ s.voxels) :
    (processPinchStep s f).lastBuildTime = f.now := by
  by_cases hd : f.pinchDistance < PINCH_THRESHOLD
  · by_cases hcd : BUILD_COOLDOWN < f.now - s.lastBuildTime
    · rw [processPinchStep_drag s f hpin hd hcd] at hvox ⊢
      rcases dragStep_cases s f with h | ⟨p, hfree, h⟩
      · exact absurd (congrArg GestureState.voxels h) hvox
      · rw [h]
    · rw [processPinchStep_cooldown s f hpin hd hcd] at hvox
      exact absurd rfl hvox
  · by_cases hrel : PINCH_THRESHOLD + 1/100 < f.pinchDistance
    · rw [processPinchStep_release s f hrel] at hvox
      exact absurd rfl hvox
    · rw [processPinchStep_band s f hd hrel] at hvox
      exact absurd rfl hvox

lemma band_noop (s : GestureState) (f : Frame)
    (h1 : PINCH_THRESHOLD < f.pinchDistance)
    (h2 : f.pinchDistance ≤ PINCH_THRESHOLD + 1/100) :
    processPinchStep s f = s :=
  processPinchStep_band s f (not_lt.mpr (le_of_lt h1)) (not_lt.mpr h2)

lemma qsign_units (q : ℚ) (h : q ≠ 0) : qsign q = 1 ∨ qsign q = -1 := by
  rcases lt_trichotomy q 0 with hlt | heq | hgt
  · right; exact qsign_of_neg q hlt
  · exact absurd heq h
  · left; exact qsign_of_pos q hgt

lemma signedAxis_lockDir (v : Vec3)
    (h : VOXEL_SIZE * (6/5) ≤ max |v.x| (max |v.y| |v.z|)) :
    signedAxis (lockDir v) := by
  have hpos : (0:ℚ) < VOXEL_SIZE * (6/5) := by norm_num [VOXEL_SIZE]
  unfold lockDir signedAxis
  by_cases hx : max |v.x| (max |v.y| |v.z|) = |v.x|
  · rw [if_pos hx]
    have hne : v.x ≠ 0 := by
      intro h0
      rw [hx, h0, abs_zero] at h
      linarith
    rcases qsign_units v.x hne with hq | hq <;> rw [hq] <;> simp
  · rw [if_neg hx]
    by_cases hy : max |v.x| (max |v.y| |v.z|) = |v.y|
    · rw [if_pos hy]
      have hne : v.y ≠ 0 := by
        intro h0
        rw [hy, h0, abs_zero] at h
        linarith
      rcases qsign_units v.y hne with hq | hq <;> rw [hq] <;> simp
    · rw [if_neg hy]
      have hz : max |v.x| (max |v.y| |v.z|) = |v.z| := by
        rcases max_choice |v.x| (max |v.y| |v.z|) with h1 | h1
        · exact absurd h1 hx
        · rcases max_choice |v.y| |v.z| with h2 | h2
          · rw [h1] at hy ⊢
            exact absurd h2 hy
          · rw [h1, h2]
      have hne : v.z ≠ 0 := by
        intro h0
        rw [hz, h0, abs_zero] at h
        linarith
      rcases qsign_units v.z hne with hq | hq <;> rw [hq] <;> simp

lemma lockedOK_step (s : GestureState) (f : Frame) (hOK : lockedOK s) :
    lockedOK (processPinchStep s f) := by
  by_cases hd : f.pinchDistance < PINCH_THRESHOLD
  · cases hpin : s.isPinching
    · rw [processPinchStep_start s f hpin hd]
      unfold pinchStart
      by_cases hemp : s.voxels.isEmpty
      · rw [if_pos hemp]
        intro n hn
        simp at hn
      · rw [if_neg hemp]
        rcases htgt : f.targetVoxelPos with _ | tgt
        · exact hOK
        · intro n hn
          simp at hn
    · by_cases hcd : BUILD_COOLDOWN < f.now - s.lastBuildTime
      · rw [processPinchStep_drag s f hpin hd hcd]
        rcases hn : s.currentBuildNormal with _ | m
        · by_cases hbig : VOXEL_SIZE * (6/5) ≤
            max |(vsub f.pinchWorldPos s.lastPinchWorldPos).x|
              (max |(vsub f.pinchWorldPos s.lastPinchWorldPos).y|
                |(vsub f.pinchWorldPos s.lastPinchWorldPos).z|)
          · cases hocc : s.voxels.any (fun v => voxelNear v
              (vadd s.lastPlacedPos
                (smul VOXEL_SIZE (lockDir (vsub f.pinchWorldPos s.lastPinchWorldPos)))))
            · rw [dragStep_unlocked_place s f hn hbig hocc]
              intro m2 hm2
              have h3 : lockDir (vsub f.pinchWorldPos s.lastPinchWorldPos) = m2 :=
                Option.some.inj hm2
              rw [← h3]
              exact signedAxis_lockDir _ hbig
            · rw [dragStep_unlocked_occupied s f hn hbig hocc]
              exact hOK
          · rw [dragStep_unlocked_small s f hn hbig]
            exact hOK
        · by_cases hbig : VOXEL_SIZE * (3/5) ≤
            |dot (vsub f.pinchWorldPos s.lastPinchWorldPos) m|
          · cases hocc : s.voxels.any (fun v => voxelNear v
              (vadd s.lastPlacedPos
                (smul (qsign (dot (vsub f.pinchWorldPos s.lastPinchWorldPos) m) * VOXEL_SIZE) m)))
            · rw [dragStep_locked_place s f m hn hbig hocc]
              intro m2 hm2
              exact hOK m2 hm2
            · rw [dragStep_locked_occupied s f m hn hbig hocc]
              exact hOK
          · rw [dragStep_locked_small s f m hn hbig]
            exact hOK
      · rw [processPinchStep_cooldown s f hpin hd hcd]
        exact hOK
  · by_cases hrel : PINCH_THRESHOLD + 1/100 < f.pinchDistance
    · rw [processPinchStep_release s f hrel]
      intro n hn
      simp at hn
    · rw [processPinchStep_band s f hd hrel]
      exact hOK

lemma pinch_start_places_snap (s : GestureState) (f : Frame)
    (hpin : s.isPinching = false) (hemp : s.voxels = [])
    (hd : f.pinchDistance < PINCH_THRESHOLD) :
    (processPinchStep s f).voxels = [snap f.pinchWorldPos] := by
  rw [processPinchStep_start s f hpin hd]
  unfold pinchStart
  rw [if_pos (by simp [hemp])]
  simp [hemp, addVoxel]

lemma lock_persists (s : GestureState) (f : Frame) (n : Vec3)
    (hpin : s.isPinching = true) (hlock : s.currentBuildNormal = some n)
    (hrel : ¬ PINCH_THRESHOLD + 1/100 < f.pinchDistance) :
    (processPinchStep s f).currentBuildNormal = some n := by
  by_cases hd : f.pinchDistance < PINCH_THRESHOLD
  · by_cases hcd : BUILD_COOLDOWN < f.now - s.lastBuildTime
    · rw [processPinchStep_drag s f hpin hd hcd]
      by_cases hbig : VOXEL_SIZE * (3/5) ≤
        |dot (vsub f.pinchWorldPos s.lastPinchWorldPos) n|
      · cases hocc : s.voxels.any (fun v => voxelNear v
          (vadd s.lastPlacedPos
            (smul (qsign (dot (vsub f.pinchWorldPos s.lastPinchWorldPos) n) * VOXEL_SIZE) n)))
        · rw [dragStep_locked_place s f n hlock hbig hocc]
          exact hlock
        · rw [dragStep_locked_occupied s f n hlock hbig hocc]
          exact hlock
      · rw [dragStep_locked_small s f n hlock hbig]
        exact hlock
    · rw [processPinchStep_cooldown s f hpin hd hcd]
      exact hlock
  · rw [processPinchStep_band s f hd hrel]
    exact hlock

lemma locked_step_on_axis (s : GestureState) (f : Frame) (n : Vec3)
    (hpin : s.isPinching = true) (hlock : s.currentBuildNormal = some n) :
    (processPinchStep s f).voxels = s.voxels ∨
    (VOXEL_SIZE * (3/5) ≤ |dot (vsub f.pinchWorldPos s.lastPinchWorldPos) n| ∧
     ∃ c : ℚ, (c = VOXEL_SIZE ∨ c = -VOXEL_SIZE) ∧
       (processPinchStep s f).voxels
         = s.voxels ++ [vadd s.lastPlacedPos (smul c n)]) := by
  by_cases hd : f.pinchDistance < PINCH_THRESHOLD
  · by_cases hcd : BUILD_COOLDOWN < f.now - s.lastBuildTime
    · rw [processPinchStep_drag s f hpin hd hcd]
      by_cases hbig : VOXEL_SIZE * (3/5) ≤
        |dot (vsub f.pinchWorldPos s.lastPinchWorldPos) n|
      · cases hocc : s.voxels.any (fun v => voxelNear v
          (vadd s.lastPlacedPos
            (smul (qsign (dot (vsub f.pinchWorldPos s.lastPinchWorldPos) n) * VOXEL_SIZE) n)))
        · right
          refine ⟨hbig, qsign (dot (vsub f.pinchWorldPos s.lastPinchWorldPos) n) * VOXEL_SIZE,
            ?_, ?_⟩
          · have hne : dot (vsub f.pinchWorldPos s.lastPinchWorldPos) n ≠ 0 := by
              intro h0
              rw [h0, abs_zero] at hbig
              have : (0:ℚ) < VOXEL_SIZE * (3/5) := by norm_num [VOXEL_SIZE]
              linarith
            rcases qsign_units _ hne with hq | hq <;> rw [hq]
            · left; rw [one_mul]
            · right; rw [neg_one_mul]
          · rw [dragStep_locked_place s f n hlock hbig hocc]
        · left
          rw [dragStep_locked_occupied s f n hlock hbig hocc]
      · left
        rw [dragStep_locked_small s f n hlock hbig]
    · left
      rw [processPinchStep_cooldown s f hpin hd hcd]
  · by_cases hrel : PINCH_THRESHOLD + 1/100 < f.pinchDistance
    · left
      rw [processPinchStep_release s f hrel]
    · left
      rw [processPinchStep_band s f hd hrel]

end VoxelHand.Refined

namespace VoxelHand

/-- Claim C3: release hysteresis.  While pinching, a frame whose thumb-index
distance lies in the band `(PINCH_THRESHOLD, PINCH_THRESHOLD + 0.01]` keeps
`isPinching` true; `isPinching` flips to false only when the distance exceeds
`PINCH_THRESHOLD + 0.01`; any sequence of frames whose distances stay in the
band leaves `isPinching` (in fact the whole state) unchanged; and concretely
a mid-pinch frame at distance 0.055 stays pinching. -/
theorem pinch_release_hysteresis :
    (∀ s f, s.isPinching = true →
      PINCH_THRESHOLD < f.pinchDistance →
      f.pinchDistance ≤ PINCH_THRESHOLD + 1/100 →
      (Refined.processPinchStep s f).isPinching = true) ∧
    (∀ s f, s.isPinching = true →
      (Refined.processPinchStep s f).isPinching = false →
      PINCH_THRESHOLD + 1/100 < f.pinchDistance) ∧
    (∀ s fs, (∀ f ∈ fs, PINCH_THRESHOLD < f.pinchDistance ∧
        f.pinchDistance ≤ PINCH_THRESHOLD + 1/100) →
      (List.foldl Refined.processPinchStep s fs).isPinching = s.isPinching) ∧
    (Refined.processPinchStep Refined.stLockedX
      { pinchDistance := 11/200, pinchWorldPos := ⟨0, 0, 0⟩
      , targetVoxelPos := none, now := 1000 }).isPinching = true := by
  have hband : ∀ s fs, (∀ f ∈ fs, PINCH_THRESHOLD < Refined.Frame.pinchDistance f ∧
      Refined.Frame.pinchDistance f ≤ PINCH_THRESHOLD + 1/100) →
      List.foldl Refined.processPinchStep s fs = s := by
    intro s fs
    induction fs generalizing s with
    | nil => intro _; rfl
    | cons f fs ih =>
      intro h
      have hf := h f (List.mem_cons_self f fs)
      rw [List.foldl_cons, Refined.band_noop s f hf.1 hf.2]
      exact ih s (fun g hg => h g (List.mem_cons_of_mem f hg))
  refine ⟨?_, ?_, ?_, ?_⟩
  · intro s f hpin h1 h2
    rw [Refined.band_noop s f h1 h2]
    exact hpin
  · intro s f hpin hrel
    by_cases hd : f.pinchDistance < PINCH_THRESHOLD
    · rw [Refined.step_pinching_stays s f hpin hd] at hrel
      exact absurd hrel (by simp)
    · by_cases h2 : PINCH_THRESHOLD + 1/100 < f.pinchDistance
      · exact h2
      · rw [Refined.processPinchStep_band s f hd h2] at hrel
        rw [hpin] at hrel
        exact absurd hrel (by simp)
  · intro s fs h
    rw [hband s fs h]
  · rw [Refined.band_noop _ _ (by norm_num [PINCH_THRESHOLD]) (by norm_num [PINCH_THRESHOLD])]
    rfl

/-- Claim C1: axis lock of the refined variant.  Any locked build normal is a
signed axis unit, the property the interpreter maintains frame to frame;
while pinching with a locked normal `n`, a frame either places nothing or
appends exactly one voxel at `lastPlacedPos ± VOXEL_SIZE · n` — one grid step
along the locked axis — and then only when the scalar projection of the hand
delta onto `n` has magnitude at least `VOXEL_SIZE * 0.6`; and the lock
persists unchanged through every frame that does not cross the release
threshold, so the whole remainder of the pinch sequence builds along `n`.
Two concrete instances: a locked +x drag with an on-axis delta places the
on-axis cell, and a frame whose delta is dominant on the y axis places
nothing at all. -/
theorem axis_lock_invariant :
    (∀ s f, Refined.lockedOK s → Refined.lockedOK (Refined.processPinchStep s f)) ∧
    (∀ s f n, s.isPinching = true → s.currentBuildNormal = some n →
      (Refined.processPinchStep s f).voxels = s.voxels ∨
      (VOXEL_SIZE * (3/5) ≤ |dot (vsub f.pinchWorldPos s.lastPinchWorldPos) n| ∧
       ∃ c : ℚ, (c = VOXEL_SIZE ∨ c = -VOXEL_SIZE) ∧
         (Refined.processPinchStep s f).voxels
           = s.voxels ++ [vadd s.lastPlacedPos (smul c n)])) ∧
    (∀ s f n, s.isPinching = true → s.currentBuildNormal = some n →
      ¬ PINCH_THRESHOLD + 1/100 < f.pinchDistance →
      (Refined.processPinchStep s f).currentBuildNormal = some n) ∧
    (Refined.processPinchStep Refined.stLockedX
      { pinchDistance := 1/25, pinchWorldPos := ⟨7/10, 2/10, 0⟩
      , targetVoxelPos := none, now := 1000 }).voxels
      = [⟨0, 0, 0⟩, ⟨1, 0, 0⟩] ∧
    (Refined.processPinchStep Refined.stLockedX
      { pinchDistance := 1/25, pinchWorldPos := ⟨0, 2, 0⟩
      , targetVoxelPos := none, now := 1000 }).voxels
      = [⟨0, 0, 0⟩] := by
  refine ⟨Refined.lockedOK_step, Refined.locked_step_on_axis, Refined.lock_persists, ?_, ?_⟩
  · norm_num [Refined.processPinchStep, Refined.dragStep, Refined.stLockedX, Refined.st0,
      PINCH_THRESHOLD, BUILD_COOLDOWN, VOXEL_SIZE, qsign, dot, vsub, vadd, smul,
      voxelNear, dist2, addVoxel, abs_of_nonneg, abs_of_nonpos, abs_zero]
  · norm_num [Refined.processPinchStep, Refined.dragStep, Refined.stLockedX, Refined.st0,
      PINCH_THRESHOLD, BUILD_COOLDOWN, VOXEL_SIZE, qsign, dot, vsub, vadd, smul,
      voxelNear, dist2, addVoxel, abs_of_nonneg, abs_of_nonpos, abs_zero]

/-- Claim C4: duplicate guard and minimum separation.  A second `addVoxel` at
the same position is a no-op; `addVoxel` at any position within 0.1 world
units (squared: `dist2 < 1/100`) of a stored voxel leaves the collection
unchanged; both `addVoxel` and a whole interpreter frame preserve pairwise
0.1-separation; hence any sequence of adds starting from the empty collection
is pairwise separated. -/
theorem addVoxel_duplicate_guard :
    (∀ vs p, addVoxel (addVoxel vs p) p = addVoxel vs p) ∧
    (∀ p, addVoxel (addVoxel [] p) p = [p]) ∧
    (∀ vs q, (∃ v ∈ vs, dist2 v q < 1/100) → addVoxel vs q = vs) ∧
    (∀ vs p, separated vs → separated (addVoxel vs p)) ∧
    (∀ s f, separated s.voxels → separated (Refined.processPinchStep s f).voxels) ∧
    (∀ ps : List Vec3, separated (List.foldl addVoxel [] ps)) := by
  have key : ∀ (ps acc : List Vec3), separated acc →
      separated (List.foldl addVoxel acc ps) := by
    intro ps
    induction ps with
    | nil => intro acc h; exact h
    | cons p ps ih =>
      intro acc h
      rw [List.foldl_cons]
      exact ih _ (separated_addVoxel _ _ h)
  refine ⟨addVoxel_idem, ?_, addVoxel_of_mem_near, separated_addVoxel, ?_, ?_⟩
  · intro p
    rw [addVoxel_idem]
    simp [addVoxel]
  · intro s f h
    rcases Refined.step_voxels_cases s f with hv | ⟨p, hv⟩
    · rw [hv]; exact h
    · rw [hv]; exact separated_addVoxel _ _ h
  · intro ps
    exact key ps [] List.Pairwise.nil

/-- Claim C5: build cooldown within a sustained pinch.  A drag frame arriving
at most `BUILD_COOLDOWN` after the last build is a complete no-op — concretely
a locked drag with a huge delta only 100 ms after the last build changes
nothing; an accepted step (one that changes the voxel collection) resets the
cooldown timer to the frame's `now`; consequently a second qualifying drag
frame less than `BUILD_COOLDOWN` after a placing frame places nothing. -/
theorem build_cooldown_spacing :
    (∀ s f, s.isPinching = true → f.pinchDistance < PINCH_THRESHOLD →
      f.now - s.lastBuildTime ≤ BUILD_COOLDOWN →
      Refined.processPinchStep s f = s) ∧
    (Refined.processPinchStep Refined.stLockedX
      { pinchDistance := 1/25, pinchWorldPos := ⟨5, 0, 0⟩
      , targetVoxelPos := none, now := 100 } = Refined.stLockedX) ∧
    (∀ s f, s.isPinching = true →
      (Refined.processPinchStep s f).voxels ≠ s.voxels →
      (Refined.processPinchStep s f).lastBuildTime = f.now) ∧
    (∀ s f1 f2, s.isPinching = true →
      f1.pinchDistance < PINCH_THRESHOLD →
      f2.pinchDistance < PINCH_THRESHOLD →
      (Refined.processPinchStep s f1).voxels ≠ s.voxels →
      f2.now - f1.now ≤ BUILD_COOLDOWN →
      Refined.processPinchStep (Refined.processPinchStep s f1) f2
        = Refined.processPinchStep s f1) := by
  refine ⟨Refined.cooldown_skip, ?_, Refined.cooldown_reset, ?_⟩
  · exact Refined.cooldown_skip Refined.stLockedX _ rfl
      (by norm_num [PINCH_THRESHOLD])
      (by norm_num [Refined.stLockedX, Refined.st0, BUILD_COOLDOWN])
  intro s f1 f2 hpin hd1 hd2 hvox hgap
  have hpin1 : (Refined.processPinchStep s f1).isPinching = true :=
    Refined.step_pinching_stays s f1 hpin hd1
  have htime : (Refined.processPinchStep s f1).lastBuildTime = f1.now :=
    Refined.cooldown_reset s f1 hpin hvox
  apply Refined.cooldown_skip _ f2 hpin1 hd2
  rw [htime]
  exact hgap

/-- Claim C6: first-voxel snapping.  With no voxels stored, a pinch onset
places exactly one voxel, at the anchor rounded per axis to the voxel grid;
at anchor (0.03, 1.97, 0.02) that cell is (0, 2, 0). -/
theorem first_voxel_snapped (s : Refined.GestureState) (f : Refined.Frame)
    (hpin : s.isPinching = false) (hemp : s.voxels = [])
    (hd : f.pinchDistance < PINCH_THRESHOLD) :
    (Refined.processPinchStep s f).voxels = [snap f.pinchWorldPos] ∧
    snap ⟨3/100, 197/100, 2/100⟩ = ⟨0, 2, 0⟩ := by
  constructor
  · exact Refined.pinch_start_places_snap s f hpin hemp hd
  · unfold snap VOXEL_SIZE
    norm_num
    refine ⟨?_, ?_, ?_⟩
    · rw [jsRound_eq (3/100) 0] <;> norm_num
    · rw [jsRound_eq (197/100) 2] <;> norm_num
    · rw [jsRound_eq (1/50) 0] <;> norm_num

/-- The C6 scenario at its concrete input: pinch onset at anchor
(0.03, 1.97, 0.02) with the empty scene yields the single voxel (0, 2, 0). -/
theorem first_voxel_snapped_witness :
    (Refined.processPinchStep Refined.st0
      { pinchDistance := 1/25, pinchWorldPos := ⟨3/100, 197/100, 2/100⟩
      , targetVoxelPos := none, now := 1000 }).voxels
      = [snap ⟨3/100, 197/100, 2/100⟩] ∧
    snap ⟨3/100, 197/100, 2/100⟩ = ⟨0, 2, 0⟩ :=
  first_voxel_snapped Refined.st0
    { pinchDistance := 1/25, pinchWorldPos := ⟨3/100, 197/100, 2/100⟩
    , targetVoxelPos := none, now := 1000 }
    rfl rfl (by norm_num [PINCH_THRESHOLD])

/-- Claim C2 counterexample: a pinch onset whose ray cast hits the voxel at
the origin starts the sequence (the pinch flag flips on) yet places no voxel
at all — the collection stays `[origin]`, with nothing at any face-offset
cell, contradicting "the first voxel of the sequence is placed at the
targeted cell". -/
theorem pinch_start_on_hit_places_nothing :
    (Refined.processPinchStep Refined.stOneVoxel
      { pinchDistance := 1/25, pinchWorldPos := ⟨1/2, 1/2, 0⟩
      , targetVoxelPos := some ⟨0, 0, 0⟩, now := 1000 }).voxels = [⟨0, 0, 0⟩] ∧
    (Refined.processPinchStep Refined.stOneVoxel
      { pinchDistance := 1/25, pinchWorldPos := ⟨1/2, 1/2, 0⟩
      , targetVoxelPos := some ⟨0, 0, 0⟩, now := 1000 }).isPinching = true := by
  constructor <;>
    norm_num [Refined.processPinchStep, Refined.pinchStart, Refined.stOneVoxel,
      Refined.st0, PINCH_THRESHOLD]

/-- Claim C2 (amended): on a pinch onset while voxels exist and the ray cast
hits a voxel, the refined code places no voxel; it marks the pinch active,
clears the axis lock, starts the cooldown timer and sets `lastPlacedPos` to
the hit voxel's own position — not a face-normal offset of it; subsequent
drag steps then build outward from that anchor. -/
theorem pinch_start_tracks_hit_voxel (s : Refined.GestureState) (f : Refined.Frame)
    (tgt : Vec3) (hpin : s.isPinching = false) (hne : s.voxels ≠ [])
    (hd : f.pinchDistance < PINCH_THRESHOLD)
    (htgt : f.targetVoxelPos = some tgt) :
    Refined.processPinchStep s f =
      { s with
        isPinching := true
      , currentBuildNormal := none
      , lastPlacedPos := tgt
      , lastPinchWorldPos := f.pinchWorldPos
      , lastBuildTime := f.now } := by
  rw [Refined.processPinchStep_start s f hpin hd]
  unfold Refined.pinchStart
  rw [if_neg (by simpa [List.isEmpty_iff] using hne), htgt]

/-- The amended C2 at its concrete input: starting a pinch on the origin
voxel only begins tracking from it. -/
theorem pinch_start_tracks_hit_voxel_witness :
    Refined.processPinchStep Refined.stOneVoxel
      { pinchDistance := 1/25, pinchWorldPos := ⟨1/2, 1/2, 0⟩
      , targetVoxelPos := some ⟨0, 0, 0⟩, now := 1000 } =
      { Refined.stOneVoxel with
        isPinching := true
      , currentBuildNormal := none
      , lastPlacedPos := ⟨0, 0, 0⟩
      , lastPinchWorldPos := ⟨1/2, 1/2, 0⟩
      , lastBuildTime := 1000 } :=
  pinch_start_tracks_hit_voxel Refined.stOneVoxel
    { pinchDistance := 1/25, pinchWorldPos := ⟨1/2, 1/2, 0⟩
    , targetVoxelPos := some ⟨0, 0, 0⟩, now := 1000 }
    ⟨0, 0, 0⟩ rfl (by simp [Refined.stOneVoxel, Refined.st0])
    (by norm_num [PINCH_THRESHOLD]) rfl

/-- Claim C7 counterexample: a zero-hands frame arriving mid-pinch with a
locked axis does not leave the cross-frame gesture state untouched — the
refined early return resets the pinch flag and clears the lock. -/
theorem no_hands_resets_pinch_cex :
    (Refined.processNoHands Refined.stLockedX).1 ≠ Refined.stLockedX := by
  intro h
  have h2 := congrArg Refined.GestureState.isPinching h
  simp [Refined.processNoHands, Refined.stLockedX, Refined.st0] at h2

/-- Claim C7 (amended): a zero-hands frame hides all indicators and performs
no voxel mutation in both variants; the simple variant leaves all state
untouched, while the refined variant's early return also resets the
pinch-active flag, the left-gesture flag and the locked build axis, leaving
every other field (voxels, timers, positions) untouched. -/
theorem no_hands_frame_effect :
    (∀ s : Refined.GestureState,
      Refined.processNoHands s =
        ({ s with isPinching := false, currentBuildNormal := none, isLeftGestureActive := false },
         ⟨false, false, false⟩)) ∧
    (∀ s : Refined.GestureState, (Refined.processNoHands s).1.voxels = s.voxels) ∧
    (∀ t : Simple.SState, Simple.sNoHands t = (t, false)) :=
  ⟨fun _ => rfl, fun _ => rfl, fun _ => rfl⟩

/-- Claim C8 counterexample: on the `lmSlackGap` snapshot the classifier
accepts, yet the claimed contract — the thumb "extended" test with the same
1.2 slack as index and middle — rejects: the thumb tip's squared planar wrist
distance (1.21 × base) clears the strict test but not the 1.44 × squared
slack bound. -/
theorem three_finger_thumb_slack_cex :
    Refined.isThreeFingerPose Refined.lmSlackGap = true ∧
    ¬ (Refined.d2 (Refined.lmSlackGap 2) (Refined.lmSlackGap 0) * (36/25)
        < Refined.d2 (Refined.lmSlackGap 4) (Refined.lmSlackGap 0)) := by
  constructor
  · norm_num [Refined.isThreeFingerPose, Refined.d2, Refined.lmSlackGap]
  · norm_num [Refined.d2, Refined.lmSlackGap]

/-- Claim C8 (amended): `isThreeFingerPose` returns true iff the thumb passes
the strict no-slack extended test (`dist(tip) > dist(base)`), index and
middle pass the 1.2-slack extended test (squared: 36/25), and ring and pinky
pass the strict curled test — all on squared planar wrist distances. -/
theorem three_finger_pose_characterization (lm : Refined.Landmarks) :
    Refined.isThreeFingerPose lm = true ↔
      (Refined.d2 (lm 2) (lm 0) < Refined.d2 (lm 4) (lm 0) ∧
       Refined.d2 (lm 5) (lm 0) * (36/25) < Refined.d2 (lm 8) (lm 0) ∧
       Refined.d2 (lm 9) (lm 0) * (36/25) < Refined.d2 (lm 12) (lm 0) ∧
       Refined.d2 (lm 16) (lm 0) < Refined.d2 (lm 13) (lm 0) ∧
       Refined.d2 (lm 20) (lm 0) < Refined.d2 (lm 17) (lm 0)) := by
  unfold Refined.isThreeFingerPose
  dsimp only []
  split_ifs with h1 h2 h3 h4 h5
  · simp only [Bool.false_eq_true, false_iff]
    rintro ⟨a1, _, _, _, _⟩
    exact absurd h1 (not_le.mpr a1)
  · simp only [Bool.false_eq_true, false_iff]
    rintro ⟨_, a2, _, _, _⟩
    exact absurd h2 (not_le.mpr a2)
  · simp only [Bool.false_eq_true, false_iff]
    rintro ⟨_, _, a3, _, _⟩
    exact absurd h3 (not_le.mpr a3)
  · simp only [Bool.false_eq_true, false_iff]
    rintro ⟨_, _, _, a4, _⟩
    exact absurd h4 (not_le.mpr a4)
  · simp only [Bool.false_eq_true, false_iff]
    rintro ⟨_, _, _, _, a5⟩
    exact absurd h5 (not_le.mpr a5)
  · simp only [true_iff]
    exact ⟨not_le.mp h1, not_le.mp h2, not_le.mp h3, not_le.mp h4, not_le.mp h5⟩

/-- Claim C9 counterexample: the scenario's two frames (spin pose, thumb tip
screen x moving 0.40 → 0.35) request `rotateLeft 0.75` on the second frame —
`-Δx · 15 = -(-0.05) · 15` — not `rotateLeft 0.075`; the first frame only
initializes the anchor. -/
theorem spin_scenario_cex :
    (Refined.processLeftHand Refined.st0 Refined.lmSpinA (1/2)).2 = [] ∧
    (Refined.processLeftHand
        (Refined.processLeftHand Refined.st0 Refined.lmSpinA (1/2)).1
        Refined.lmSpinB (1/2)).2 = [Refined.CamCmd.rotateLeft (3/4)] ∧
    (3/4 : ℚ) ≠ 3/40 := by
  refine ⟨?_, ?_, by norm_num⟩
  · norm_num [Refined.processLeftHand, Refined.isThreeFingerPose, Refined.isTiltingPose,
      Refined.isGrip, Refined.d2, Refined.lmSpinA, Refined.lmSpinB, Refined.st0]
  · norm_num [Refined.processLeftHand, Refined.isThreeFingerPose, Refined.isTiltingPose,
      Refined.isGrip, Refined.d2, Refined.lmSpinA, Refined.lmSpinB, Refined.st0]

/-- Claim C9 (amended): while the spin pose holds (and the tilt pose does
not) with the gesture already active, a frame requests exactly
`rotateLeft(-Δx * 15)` for the thumb-tip screen delta `Δx` and re-anchors on
the current thumb tip; for x moving 0.40 → 0.35 that request is
`rotateLeft 0.75`. -/
theorem spin_rotation_rule (s : Refined.GestureState) (lm : Refined.Landmarks)
    (d : ℚ) (hspin : Refined.isThreeFingerPose lm = true)
    (htilt : Refined.isTiltingPose lm = false)
    (hact : s.isLeftGestureActive = true) :
    (Refined.processLeftHand s lm d).2
      = [Refined.CamCmd.rotateLeft (-((lm 4).x - s.lastLeftHandPos.x) * 15)] ∧
    (Refined.processLeftHand s lm d).1.lastLeftHandPos = ⟨(lm 4).x, (lm 4).y⟩ := by
  unfold Refined.processLeftHand
  rw [hspin, htilt]
  simp [hact]

/-- The amended C9 at its concrete input: from anchor x = 0.40, the 0.35
frame requests `rotateLeft (-(0.35 - 0.40) · 15)`. -/
theorem spin_rotation_rule_witness :
    (Refined.processLeftHand Refined.stSpin Refined.lmSpinB (1/2)).2
      = [Refined.CamCmd.rotateLeft
          (-((Refined.lmSpinB 4).x - Refined.stSpin.lastLeftHandPos.x) * 15)] ∧
    (Refined.processLeftHand Refined.stSpin Refined.lmSpinB (1/2)).1.lastLeftHandPos
      = ⟨(Refined.lmSpinB 4).x, (Refined.lmSpinB 4).y⟩ :=
  spin_rotation_rule Refined.stSpin Refined.lmSpinB (1/2)
    (by norm_num [Refined.isThreeFingerPose, Refined.d2, Refined.lmSpinB, Refined.lmSpinA])
    (by norm_num [Refined.isTiltingPose, Refined.d2, Refined.lmSpinB, Refined.lmSpinA])
    rfl

/-- Claim C10: the cooldown is not enforced across pinch sequences.  In both
variants a pinch onset places its first voxel with no test of
`now - lastBuildTime` (stated here with the cooldown window still open); a
drag step inside one sustained pinch is gated by the cooldown; and in a
concrete trace of the simpler variant a voxel placed at t = 1000 is
followed — release at 1100, re-pinch on the structure at 1200 — by a second
voxel only 200 ms after the first. -/
theorem cooldown_not_enforced_across_pinches :
    (∀ (s : Simple.SState) (d : ℚ) (cur : Vec3) (now : ℚ),
      s.isPinching = false → d < PINCH_THRESHOLD → s.voxels = [] →
      now - s.lastBuildTime ≤ BUILD_COOLDOWN →
      (Simple.sStep s d cur now).voxels = s.voxels ++ [snap cur]) ∧
    (∀ (s : Refined.GestureState) (f : Refined.Frame),
      s.isPinching = false → f.pinchDistance < PINCH_THRESHOLD → s.voxels = [] →
      f.now - s.lastBuildTime ≤ BUILD_COOLDOWN →
      (Refined.processPinchStep s f).voxels = [snap f.pinchWorldPos]) ∧
    (∀ (s : Simple.SState) (d : ℚ) (cur : Vec3) (now : ℚ),
      s.isPinching = true → d < PINCH_THRESHOLD →
      now - s.lastBuildTime ≤ BUILD_COOLDOWN →
      Simple.sStep s d cur now = s) ∧
    ((Simple.sStep (Simple.sStep (Simple.sStep Simple.sSt0 (1/25) ⟨0, 0, 0⟩ 1000)
        (7/100) ⟨0, 0, 0⟩ 1100) (1/25) ⟨4/5, 0, 0⟩ 1200).voxels
      = [⟨0, 0, 0⟩, ⟨1, 0, 0⟩] ∧
     (1200 : ℚ) - 1000 < BUILD_COOLDOWN) := by
  refine ⟨?_, ?_, ?_, ?_, by norm_num [BUILD_COOLDOWN]⟩
  · intro s d cur now hpin hd hemp hcool
    unfold Simple.sStep
    rw [if_pos hd, if_pos hpin, if_pos (by simp [hemp])]
    simp only []
    rw [hemp]
    simp [addVoxel]
  · intro s f hpin hd hemp hcool
    rw [Refined.pinch_start_places_snap s f hpin hemp hd]
  · intro s d cur now hpin hd hcool
    unfold Simple.sStep
    rw [if_pos hd, if_neg (by simp [hpin]), if_neg (not_lt.mpr hcool)]
  · norm_num [Simple.sStep, Simple.computeTarget, Simple.closestVoxel, Simple.faceNormal,
      Simple.dominantStep, Simple.sSt0, snap, jsRound, addVoxel, voxelNear, dist2,
      vadd, vsub, smul, dot, VOXEL_SIZE, PINCH_THRESHOLD, BUILD_COOLDOWN]

end VoxelHand
